import Mathlib

/-!
Verification of the caminio-auth user-identity and session subsystem.

The definitions below are a shallow embedding of two source files:
- src/api/models/user.js (credential engine and identity record)
- src/config/hooks/session.js (passport session revalidator)

JavaScript strings are modelled as Lean String, nullable values as Option,
millisecond timestamps (Date.getTime values) as Int. External collaborators
(the crypto HMAC, the uid utility, the implementation defined Date toString)
are passed as function parameters.
-/

namespace CaminioAuth

/-! ## Credential engine: src/api/models/user.js -/

/-- Stored credential pair of an identity: `salt` and `encryptedPassword`
(schema fields, user.js lines 318-319). -/
structure Credentials where
  salt : String
  encryptedPassword : String
  deriving DecidableEq, Repr

/-- Embeds `schema.method('encryptPassword', ...)` (user.js line 483):
`crypto.createHmac('sha256WithRSAEncryption', this.salt).update(password).digest('hex')`.
The HMAC primitive is the external node crypto collaborator, passed as the
parameter `hmac` taking the key (salt) and the message (password). -/
def encryptPassword (hmac : String → String → String) (u : Credentials)
    (password : String) : String :=
  hmac u.salt password

/-- Embeds `schema.method('authenticate', ...)` (user.js line 434):
`this.encryptPassword(plainTextPassword) === this.encryptedPassword`. -/
def authenticate (hmac : String → String → String) (u : Credentials)
    (plainTextPassword : String) : Bool :=
  encryptPassword hmac u plainTextPassword == u.encryptedPassword

/-- Character class `[A-Z]` of the password regex. -/
def isUpperAZ (c : Char) : Bool :=
  decide ('A' ≤ c) && decide (c ≤ 'Z')

/-- Character class `[a-z]` of the password regex. -/
def isLowerAZ (c : Char) : Bool :=
  decide ('a' ≤ c) && decide (c ≤ 'z')

/-- Character class `[0-9]` of the password regex. -/
def isDigit09 (c : Char) : Bool :=
  decide ('0' ≤ c) && decide (c ≤ '9')

/-- Does `[A-Z]+[a-z]+[0-9]+` match at the very start of the character list?
Because the three classes are disjoint, greedy runs without backtracking are
exact for this pattern. -/
def matchUldAt (cs : List Char) : Bool :=
  match cs with
  | [] => false
  | c :: rest =>
    isUpperAZ c &&
      (match (c :: rest).dropWhile isUpperAZ with
       | [] => false
       | d :: rest2 =>
         isLowerAZ d &&
           (match (d :: rest2).dropWhile isLowerAZ with
            | [] => false
            | e :: _ => isDigit09 e))

/-- Unanchored search of `pwd.match(/[A-Z]+[a-z]+[0-9]+/)` (user.js line 582):
true iff the pattern matches at some position. -/
def hasUldMatch : List Char → Bool
  | [] => false
  | c :: cs => matchUldAt (c :: cs) || hasUldMatch cs

/-- Embeds `function checkPassword(pwd, confirm_pwd)` (user.js lines 577-585).
JavaScript truthiness is kept: `!pwd` is true for null/undefined (`none`) and
for the empty string, and `confirm_pwd &&` skips the comparison when the
confirmation is absent or the empty string. The result array `[false, msg]`
or `[true]` is modelled as `Bool × Option String`. -/
def checkPassword (pwd confirm_pwd : Option String) : Bool × Option String :=
  match pwd with
  | none => (false, some "too_short")
  | some p =>
    if p == "" || p.length < 6 then (false, some "too_short")
    else
      let confirmFails :=
        match confirm_pwd with
        | none => false
        | some s => !(s == "") && !(s == p)
      if confirmFails then (false, some "confirmation_missmatch")
      else if !(hasUldMatch p.toList) then (false, some "requirements_not_met")
      else (true, none)

/-- States when the confirmation guard of `checkPassword` does not fire:
the confirmation is absent, empty (falsy in JavaScript), or equal to pwd. -/
def confirmPasses (p : String) (confirm_pwd : Option String) : Bool :=
  match confirm_pwd with
  | none => true
  | some s => s == "" || s == p

/-- Predicate following the words of the claim for the password
requirements: the string contains at least one uppercase letter, one
lowercase letter and one digit in that relative order, at not necessarily
adjacent positions. Stated for comparison with `hasUldMatch`, which embeds
the actual source regex. -/
def specContainsUpperLowerDigitInOrder (cs : List Char) : Bool :=
  match cs.dropWhile (fun c => !isUpperAZ c) with
  | [] => false
  | _ :: rest =>
    match rest.dropWhile (fun c => !isLowerAZ c) with
    | [] => false
    | _ :: rest2 => rest2.any isDigit09

/-! ## Confirmation key generation: user.js lines 443-448 -/

/-- Value of a JavaScript expression that is either a string or a number;
used for the confirmation expiry field, because `new Date() + 1800*1000`
produces a string in JavaScript. -/
inductive JsVal where
  | str (s : String)
  | num (n : Int)
  deriving DecidableEq, Repr

/-- The `confirmation` subdocument of the user schema (user.js lines 331-335). -/
structure Confirmation where
  key : Option String
  expires : Option JsVal
  tries : Option Int
  deriving DecidableEq, Repr

/-- Embeds `schema.method('generateConfirmationKey', ...)` (user.js lines 443-448):
`this.confirmation.key = caminioUtil.uid(8);`
`this.confirmation.expires = new Date()+1800*1000;`
`this.confirmation.tries = this.confirmation.tries || 0; this.confirmation.tries += 1;`
The uid utility (external package caminio/util) and the implementation defined
Date toString are parameters. In JavaScript, applying `+` to a Date and a
number coerces the Date with the default toPrimitive hint, which yields its
toString, so the addition is string concatenation, not date arithmetic; the
embedding records exactly that value. `tries || 0` maps `none` and `some 0`
to `0`, which `Option.getD 0` reproduces on integers. -/
def generateConfirmationKey (uid : Nat → String) (dateToString : Int → String)
    (now : Int) (c : Confirmation) : Confirmation :=
  { key := some (uid 8)
  , expires := some (JsVal.str (dateToString now ++ toString (1800 * 1000)))
  , tries := some (c.tries.getD 0 + 1) }

/-! ## Identity record: roles, superuser, admin -/

/-- The authorization relevant fields of an identity: `_id.toString()`,
`email` and `role` (user.js lines 323, 336). -/
structure Identity where
  id : String
  email : String
  role : Int
  deriving DecidableEq, Repr

/-- A Domain instance as seen by `isAdmin`: only its `owner` id matters
(compared via `owner.equals(this._id.toString())`, user.js line 501). -/
structure Domain where
  owner : String
  deriving DecidableEq, Repr

/-- Embeds `schema.method('isSuperUser', ...)` (user.js lines 533-535):
`caminio.config.superusers && caminio.config.superusers.indexOf(this.email) >= 0`.
An undefined superusers config (`none`) is falsy, so the whole expression is
false; a present array (even empty) proceeds to the indexOf test. -/
def isSuperUser (superusers : Option (List String)) (u : Identity) : Bool :=
  match superusers with
  | none => false
  | some l => l.contains u.email

/-- Embeds `schema.method('isAdmin', ...)` (user.js lines 496-503). The
`instanceof caminio.models.Domain` test is modelled by the Option: `some d`
is a Domain instance, `none` is an absent (or non Domain) argument, which
falls through to the role test. -/
def isAdmin (superusers : Option (List String)) (u : Identity)
    (groupOrDomain : Option Domain) : Bool :=
  if isSuperUser superusers u then true
  else
    match groupOrDomain with
    | some d => d.owner == u.id
    | none => decide (u.role ≤ 5)

/-- Embeds the `admin` virtual (user.js lines 505-509):
superuser or `role <= 5`, with no domain argument. -/
def admin (superusers : Option (List String)) (u : Identity) : Bool :=
  if isSuperUser superusers u then true
  else decide (u.role ≤ 5)

/-! ## Public projection: user.js lines 587-596 -/

/-- Embeds `schema.publicAttributes` (user.js lines 587-596), the allow list
of attribute names exposed to untrusted consumers. -/
def publicAttributes : List String :=
  [ "name.first", "name.last", "name.full", "email"
  , "lastLoginAt", "lastRequestAt", "superuser", "admin" ]

/-- Modelled from the spec: the serializer that projects an identity onto
`publicAttributes` is not under src/ (only the allow list is); per the spec,
when serializing an identity for any untrusted consumer, only the allow
listed attribute set is exposed. An identity is a list of named fields and
the projection keeps exactly the fields whose name is allow listed. -/
def publicProjection (fields : List (String × JsVal)) : List (String × JsVal) :=
  fields.filter (fun kv => publicAttributes.contains kv.1)

/-! ## Session revalidator: src/config/hooks/session.js -/

/-- An infrastructure failure reported by the store. -/
structure StoreError where
  msg : String
  deriving DecidableEq, Repr

/-- The fields of a stored user that the deserialize hook inspects: its id
and its `lastRequestAt` timestamp in milliseconds (`getTime`), absent when
the field is unset. -/
structure SessionUser where
  id : String
  lastRequestAt : Option Int
  deriving DecidableEq, Repr

/-- Outcome of the `findOne` store lookup (session.js lines 32-34):
a store error, a found user, or null. -/
inductive LookupResult where
  | err (e : StoreError)
  | found (u : SessionUser)
  | notFound
  deriving DecidableEq, Repr

/-- Outcome of the `user.update` store write (session.js line 39). -/
inductive WriteOutcome where
  | ok
  | fail (e : StoreError)
  deriving DecidableEq, Repr

/-- The arguments `deserialize` passes to the passport `done` callback. -/
structure DoneCall where
  error : Option StoreError
  user : Option SessionUser
  deriving DecidableEq, Repr

/-- Observable behaviour of one `deserialize` run: the `done` call, and the
`lastRequestAt` value written to the store (`none` when no write was issued). -/
structure DeserializeTrace where
  done : DoneCall
  write : Option Int
  deriving DecidableEq, Repr

/-- Embeds `function deserialize(id, done)` (session.js lines 31-46), with
the store responses as inputs. `now` is the current time in milliseconds and
`timeout` is `caminio.config.session.timeout`. The code:
lookup error returns `done(err)`; a found user with absent `lastRequestAt`
(a Date is always truthy, so `!user.lastRequestAt` means unset) or with
`getTime() < now - timeout` returns `done(null, null)`; otherwise it issues
`user.update({lastRequestAt: new Date()})` and calls `done(err, user)` with
the write outcome; a null user returns `done(err, user)`, both null. -/
def deserialize (lookup : LookupResult) (now timeout : Int)
    (w : WriteOutcome) : DeserializeTrace :=
  match lookup with
  | LookupResult.err e => { done := { error := some e, user := none }, write := none }
  | LookupResult.found u =>
    match u.lastRequestAt with
    | none => { done := { error := none, user := none }, write := none }
    | some t =>
      if t < now - timeout then
        { done := { error := none, user := none }, write := none }
      else
        match w with
        | WriteOutcome.ok =>
          { done := { error := none, user := some u }, write := some now }
        | WriteOutcome.fail e =>
          { done := { error := some e, user := some u }, write := some now }
  | LookupResult.notFound => { done := { error := none, user := none }, write := none }

/-! ## Theorems -/

/-- Claim C1, counterexample: for the concrete identity with absent
lastRequestAt, deserialize resolves to no user and issues no refresh write,
contrary to the claim that it proceeds to refresh and resolve to the
identity. -/
theorem deserialize_missing_lastRequestAt_cex :
    (deserialize (LookupResult.found ⟨"u0", none⟩) 1000000 5000 WriteOutcome.ok).done.user
      = none
    ∧ (deserialize (LookupResult.found ⟨"u0", none⟩) 1000000 5000 WriteOutcome.ok).write
      = none :=
  ⟨rfl, rfl⟩

/-- Claim C1, amended: for every identity found by the revalidator whose
lastRequestAt is absent, deserialize resolves to anonymous with no error and
attempts no write: the `!user.lastRequestAt` disjunct routes absent
timestamps to `done(null, null)`. -/
theorem deserialize_missing_lastRequestAt_anonymous (u : SessionUser)
    (now timeout : Int) (w : WriteOutcome) (h : u.lastRequestAt = none) :
    deserialize (LookupResult.found u) now timeout w = ⟨⟨none, none⟩, none⟩ := by
  simp [deserialize, h]

/-- Witness for the amended claim C1 at a concrete input. -/
theorem deserialize_missing_lastRequestAt_anonymous_witness :
    deserialize (LookupResult.found ⟨"u0", none⟩) 2000000 5000 WriteOutcome.ok
      = ⟨⟨none, none⟩, none⟩ :=
  deserialize_missing_lastRequestAt_anonymous ⟨"u0", none⟩ 2000000 5000 WriteOutcome.ok rfl

/-- Claim C2: deserialize never produces an error for a not-found identity
(anonymous, no error, no write), nor for an expired session (anonymous, no
error); a lookup error is propagated unchanged; and every produced error is
exactly a store failure, of the lookup or of the refresh write. -/
theorem deserialize_error_only_on_store_failure
    (now timeout : Int) (w : WriteOutcome) (u : SessionUser) (t : Int) (e : StoreError)
    (hl : u.lastRequestAt = some t) (hstale : t < now - timeout) :
    deserialize LookupResult.notFound now timeout w = ⟨⟨none, none⟩, none⟩
    ∧ deserialize (LookupResult.found u) now timeout w = ⟨⟨none, none⟩, none⟩
    ∧ deserialize (LookupResult.err e) now timeout w = ⟨⟨some e, none⟩, none⟩
    ∧ ∀ lk e2, (deserialize lk now timeout w).done.error = some e2 →
        lk = LookupResult.err e2 ∨ w = WriteOutcome.fail e2 := by
  refine ⟨rfl, by simp [deserialize, hl, hstale], rfl, ?_⟩
  intro lk e2 he
  cases lk with
  | err e3 =>
    simp only [deserialize, Option.some.injEq] at he
    exact Or.inl (by rw [he])
  | found u2 =>
    cases h2 : u2.lastRequestAt with
    | none => simp [deserialize, h2] at he
    | some t2 =>
      by_cases hs : t2 < now - timeout
      · simp [deserialize, h2, hs] at he
      · cases w with
        | ok => simp [deserialize, h2, hs] at he
        | fail e4 =>
          simp only [deserialize, h2, if_neg hs, Option.some.injEq] at he
          exact Or.inr (by rw [he])
  | notFound => simp [deserialize] at he

/-- Witness for claim C2 at concrete inputs: a null lookup and an expired
session both resolve anonymous with no error and no write. -/
theorem deserialize_error_only_on_store_failure_witness :
    deserialize LookupResult.notFound 1000000 5000 WriteOutcome.ok = ⟨⟨none, none⟩, none⟩
    ∧ deserialize (LookupResult.found ⟨"u2", some 0⟩) 1000000 5000 WriteOutcome.ok
      = ⟨⟨none, none⟩, none⟩ :=
  ⟨(deserialize_error_only_on_store_failure 1000000 5000 WriteOutcome.ok
      ⟨"u2", some 0⟩ 0 ⟨"boom"⟩ rfl (by decide)).1,
   (deserialize_error_only_on_store_failure 1000000 5000 WriteOutcome.ok
      ⟨"u2", some 0⟩ 0 ⟨"boom"⟩ rfl (by decide)).2.1⟩

/-- Claim C3: authenticate succeeds exactly when the salted hash of the
plaintext equals the stored encrypted password, and the digest is a function
of the salt and the plaintext alone, so equal pairs give equal digests. -/
theorem authenticate_iff_hash_matches (hmac : String → String → String)
    (u u2 : Credentials) (p p2 : String) (hs : u2.salt = u.salt) (hp : p2 = p) :
    (authenticate hmac u p = true ↔ hmac u.salt p = u.encryptedPassword)
    ∧ encryptPassword hmac u2 p2 = encryptPassword hmac u p := by
  constructor
  · simp [authenticate, encryptPassword]
  · simp [encryptPassword, hs, hp]

/-- Witness for claim C3 with a concrete hash function and credentials. -/
theorem authenticate_iff_hash_matches_witness :
    (authenticate (fun s q => s ++ q) ⟨"sa", "sapw"⟩ "pw" = true
      ↔ (fun s q => s ++ q) "sa" "pw" = "sapw")
    ∧ encryptPassword (fun s q => s ++ q) ⟨"sa", "zz"⟩ "pw"
      = encryptPassword (fun s q => s ++ q) ⟨"sa", "sapw"⟩ "pw" :=
  authenticate_iff_hash_matches (fun s q => s ++ q) ⟨"sa", "sapw"⟩ ⟨"sa", "zz"⟩
    "pw" "pw" rfl rfl

/-- Claim C4: for a found identity that is not stale, deserialize writes
lastRequestAt = now to the store, and its resolution reflects the outcome of
that write: on success it resolves to the identity with no error, on failure
the write error is propagated. -/
theorem deserialize_fresh_refreshes_and_waits (u : SessionUser)
    (t now timeout : Int) (e : StoreError)
    (hl : u.lastRequestAt = some t) (hfresh : ¬ t < now - timeout) :
    deserialize (LookupResult.found u) now timeout WriteOutcome.ok
      = ⟨⟨none, some u⟩, some now⟩
    ∧ deserialize (LookupResult.found u) now timeout (WriteOutcome.fail e)
      = ⟨⟨some e, some u⟩, some now⟩ := by
  constructor <;> simp [deserialize, hl, hfresh]

/-- Witness for claim C4 at a concrete fresh session. -/
theorem deserialize_fresh_refreshes_and_waits_witness :
    deserialize (LookupResult.found ⟨"u1", some 999000⟩) 1000000 5000 WriteOutcome.ok
      = ⟨⟨none, some ⟨"u1", some 999000⟩⟩, some 1000000⟩
    ∧ deserialize (LookupResult.found ⟨"u1", some 999000⟩) 1000000 5000
        (WriteOutcome.fail ⟨"boom"⟩)
      = ⟨⟨some ⟨"boom"⟩, some ⟨"u1", some 999000⟩⟩, some 1000000⟩ :=
  deserialize_fresh_refreshes_and_waits ⟨"u1", some 999000⟩ 999000 1000000 5000
    ⟨"boom"⟩ rfl (by decide)

/-- Claim C5, counterexample: the code tags a failed confirmation with the
literal string confirmation_missmatch, not confirmation_mismatch as the
claim states; and a given empty confirmation that differs from pwd does not
fail at all, because the empty string is falsy in the guard. -/
theorem checkPassword_confirmation_claim_cex :
    (checkPassword (some "abcdefgh") (some "different")).2 = some "confirmation_missmatch"
    ∧ (checkPassword (some "abcdefgh") (some "different")).2 ≠ some "confirmation_mismatch"
    ∧ checkPassword (some "Abcdef1") (some "") = (true, none) := by
  decide

/-- Claim C5, amended: length is checked before confirmation and the first
failure wins: a pwd of length < 6 yields too_short regardless of the
confirmation argument, and a pwd of length at least 6 with a non-empty
confirmation differing from pwd yields the tag confirmation_missmatch in the
sources spelling. -/
theorem checkPassword_length_before_confirmation (p s : String) (c : Option String) :
    (p.length < 6 → checkPassword (some p) c = (false, some "too_short"))
    ∧ (6 ≤ p.length → s ≠ "" → s ≠ p →
        checkPassword (some p) (some s) = (false, some "confirmation_missmatch")) := by
  constructor
  · intro h
    simp [checkPassword, h]
  · intro h6 hne hnep
    have hp : (p == "") = false := by
      cases hpe : p == "" with
      | false => rfl
      | true =>
        rw [beq_iff_eq] at hpe
        subst hpe
        simp at h6
    simp [checkPassword, hp, Nat.not_lt.mpr h6, hne, hnep]

/-- Witness for the amended claim C5 at concrete inputs. -/
theorem checkPassword_length_before_confirmation_witness :
    checkPassword (some "short") (some "different") = (false, some "too_short")
    ∧ checkPassword (some "abcdefgh") (some "diff2")
      = (false, some "confirmation_missmatch") :=
  ⟨(checkPassword_length_before_confirmation "short" "x" (some "different")).1 (by decide),
   (checkPassword_length_before_confirmation "abcdefgh" "diff2" none).2
     (by decide) (by decide) (by decide)⟩

/-- Claim C6, counterexample: the string AAbb.11 has length at least 6,
passes the confirmation check, and contains an uppercase letter, a lowercase
letter and a digit in that relative order, yet checkPassword rejects it with
requirements_not_met, because the source regex requires the three character
runs to be contiguous. -/
theorem checkPassword_relative_order_cex :
    specContainsUpperLowerDigitInOrder ("AAbb.11").toList = true
    ∧ 6 ≤ ("AAbb.11" : String).length
    ∧ checkPassword (some "AAbb.11") none = (false, some "requirements_not_met") := by
  decide

/-- Claim C6, amended: for every pwd of length at least 6 whose confirmation
check passes, checkPassword succeeds if and only if pwd contains a
contiguous match of the unanchored pattern of one or more uppercase letters
immediately followed by one or more lowercase letters immediately followed
by one or more digits; otherwise it fails with requirements_not_met. -/
theorem checkPassword_requirements_contiguous (p : String) (c : Option String)
    (hlen : ¬ p.length < 6) (hc : confirmPasses p c = true) :
    checkPassword (some p) c =
      (if hasUldMatch p.toList then (true, none)
       else (false, some "requirements_not_met")) := by
  have hp : (p == "") = false := by
    cases hpe : p == "" with
    | false => rfl
    | true =>
      rw [beq_iff_eq] at hpe
      subst hpe
      simp at hlen
  cases c with
  | none =>
    simp only [checkPassword, hp, Bool.false_or, decide_eq_true_eq]
    rw [if_neg hlen]
    cases hm : hasUldMatch p.toList <;> simp
  | some s =>
    simp only [confirmPasses, Bool.or_eq_true, beq_iff_eq] at hc
    simp only [checkPassword, hp, Bool.false_or, decide_eq_true_eq]
    rw [if_neg hlen]
    have hguard : (!(s == "") && !(s == p)) = false := by
      rcases hc with hc | hc <;> subst hc <;> simp
    simp only [hguard, if_false, Bool.false_eq_true]
    cases hm : hasUldMatch p.toList <;> simp

/-- Witness for the amended claim C6 at a concrete accepted password. -/
theorem checkPassword_requirements_contiguous_witness :
    checkPassword (some "Abcdef1") none =
      (if hasUldMatch ("Abcdef1").toList then (true, none)
       else (false, some "requirements_not_met")) :=
  checkPassword_requirements_contiguous "Abcdef1" none (by decide) (by decide)

/-- Claim C7: evaluation of generateConfirmationKey at a concrete identity
with absent tries. The key is set to uid(8) and tries becomes 1, but the
expiry is the string concatenation of the Date toString with 1800000 — a
JsVal.str, not a time thirty minutes ahead: in JavaScript, Date plus Number
coerces the Date to its string. -/
theorem generateConfirmationKey_eval :
    generateConfirmationKey (fun _ => "k3x9q7w2") (fun _ => "Thu Jan 01 1970 00:30:00")
        1800000 ⟨none, none, none⟩
      = ⟨some "k3x9q7w2", some (JsVal.str "Thu Jan 01 1970 00:30:001800000"), some 1⟩ :=
  rfl

/-- Claim C8: for an identity that is not a superuser and has role > 5,
isAdmin with a domain context is true exactly when the domain owner equals
the identity id, while the parameterless admin property equals superuser OR
role at most 5, hence false here — the ownership branch is reachable only
through isAdmin with a context. -/
theorem isAdmin_domain_ownership_asymmetry (su : Option (List String))
    (u : Identity) (d : Domain)
    (h1 : isSuperUser su u = false) (h2 : 5 < u.role) :
    (isAdmin su u (some d) = true ↔ d.owner = u.id)
    ∧ admin su u = (isSuperUser su u || decide (u.role ≤ 5))
    ∧ admin su u = false := by
  refine ⟨?_, ?_, ?_⟩
  · simp [isAdmin, h1]
  · simp [admin, h1]
  · simp [admin, h1, Int.not_le.mpr h2]

/-- Witness for claim C8 at a concrete non superuser identity with role 100
owning a domain. -/
theorem isAdmin_domain_ownership_asymmetry_witness :
    (isAdmin none ⟨"i1", "a@b.c", 100⟩ (some ⟨"i1"⟩) = true ↔ ("i1" : String) = "i1")
    ∧ admin none ⟨"i1", "a@b.c", 100⟩
      = (isSuperUser none ⟨"i1", "a@b.c", 100⟩ || decide ((100 : Int) ≤ 5))
    ∧ admin none ⟨"i1", "a@b.c", 100⟩ = false :=
  isAdmin_domain_ownership_asymmetry none ⟨"i1", "a@b.c", 100⟩ ⟨"i1"⟩ rfl (by decide)

/-- Helper for claim C9: every allow listed attribute name is neither salt
nor encryptedPassword. -/
theorem contains_publicAttributes_not_secret (s : String)
    (h : publicAttributes.contains s = true) :
    (!(s == "salt") && !(s == "encryptedPassword")) = true := by
  simp only [publicAttributes, List.contains_eq_any_beq, List.any_cons, List.any_nil,
    Bool.or_false, Bool.or_eq_true, beq_iff_eq] at h
  rcases h with h | h | h | h | h | h | h | h <;> subst h <;> decide

/-- Claim C9: for every identity field set, the public projection keeps only
allow listed attribute names and in particular never contains the salt or
the encryptedPassword field. -/
theorem publicProjection_allowlist_only (fields : List (String × JsVal)) :
    ((publicProjection fields).all fun kv =>
      publicAttributes.contains kv.1
        && !(kv.1 == "salt") && !(kv.1 == "encryptedPassword")) = true := by
  rw [List.all_eq_true]
  intro kv hkv
  simp only [publicProjection] at hkv
  have hC : publicAttributes.contains kv.1 = true := (List.mem_filter.mp hkv).2
  have hS := contains_publicAttributes_not_secret kv.1 hC
  simp only [Bool.and_eq_true] at hS ⊢
  exact ⟨⟨hC, hS.1⟩, hS.2⟩

/-- Claim C10: checkPassword is total on absent input: a null or undefined
pwd and the empty string both return the too_short failure value for any
confirmation argument, because the guard tests pwd for falsiness before
reading its length. -/
theorem checkPassword_total_on_absent_input (c : Option String) :
    checkPassword none c = (false, some "too_short")
    ∧ checkPassword (some "") c = (false, some "too_short") :=
  ⟨rfl, rfl⟩

end CaminioAuth
